import Mathlib

/-!
Verification of the SeaYou marine navigation core.

This file gives a shallow embedding of the route-planning geodesy
utilities, the route builder, the nautical-chart hazard analyzer and the
offline navigation state machine of the SeaYou repository, together with
theorems that check the natural-language specification against the
embedded code.

Embedded sources:
- the route planning service: calculateDistance, calculateBearing,
  calculateRouteDistance, calculateETA, calculateNavigationState,
  isNearWaypoint, addWaypoint;
- packages/core/src/services/nauticalChartService.ts: parseDepth,
  distanceFromLineSegment, analyzeRouteHazards, suggestHazardAvoidance,
  requiresRerouting;
- the OfflineNavigationSystem class: startNavigation, stopNavigation,
  pauseNavigation, resumeNavigation, handlePositionUpdate and its three
  checks, getStatus.

JavaScript numbers are modelled as real numbers; transcendental library
functions (Math.sin, Math.cos, Math.sqrt, Math.atan2) are modelled by the
corresponding real functions.  Display-only string report fields
(warnings, recommendations) of RouteAnalysis are not modelled; no claim
mentions them.  Functions performing network or storage I/O take the
fetched data as an explicit argument.
-/

noncomputable section

open scoped Classical

namespace SeaYou

/-- Degrees to radians, as in the source helper toRadians. -/
def toRadians (degrees : ℝ) : ℝ := degrees * Real.pi / 180

/-- Radians to degrees, as in the source helper toDegrees. -/
def toDegrees (radians : ℝ) : ℝ := radians * 180 / Real.pi

/-- JavaScript Math.atan2 y x, modelled as the argument of the complex
number x + y i, which lies in the half-open interval (-pi, pi]. -/
def atan2 (y x : ℝ) : ℝ := Complex.arg ((x : ℂ) + (y : ℂ) * Complex.I)

/-- Truncation toward zero, the rounding JavaScript applies in the
remainder operator a % b. -/
def realTrunc (x : ℝ) : ℤ := if 0 ≤ x then ⌊x⌋ else ⌈x⌉

/-- JavaScript remainder a % b = a - b * trunc (a / b). -/
def jsMod (a b : ℝ) : ℝ := a - b * (realTrunc (a / b) : ℝ)

/-- The intermediate value a of the Haversine formula in
calculateDistance. -/
def haversineA (lat1 lon1 lat2 lon2 : ℝ) : ℝ :=
  Real.sin (toRadians (lat2 - lat1) / 2) * Real.sin (toRadians (lat2 - lat1) / 2) +
    Real.cos (toRadians lat1) * Real.cos (toRadians lat2) *
      Real.sin (toRadians (lon2 - lon1) / 2) * Real.sin (toRadians (lon2 - lon1) / 2)

/-- calculateDistance from the route planning service: Haversine
great-circle distance in nautical miles, Earth radius 3440.065 NM. -/
def calculateDistance (lat1 lon1 lat2 lon2 : ℝ) : ℝ :=
  3440.065 *
    (2 * atan2 (Real.sqrt (haversineA lat1 lon1 lat2 lon2))
      (Real.sqrt (1 - haversineA lat1 lon1 lat2 lon2)))

/-- The y component of the atan2 argument in calculateBearing. -/
def bearingY (lon1 lat2 lon2 : ℝ) : ℝ :=
  Real.sin (toRadians (lon2 - lon1)) * Real.cos (toRadians lat2)

/-- The x component of the atan2 argument in calculateBearing. -/
def bearingX (lat1 lon1 lat2 lon2 : ℝ) : ℝ :=
  Real.cos (toRadians lat1) * Real.sin (toRadians lat2) -
    Real.sin (toRadians lat1) * Real.cos (toRadians lat2) * Real.cos (toRadians (lon2 - lon1))

/-- calculateBearing from the route planning service: initial bearing in
degrees, normalized by (bearing + 360) % 360 with the JavaScript
remainder. -/
def calculateBearing (lat1 lon1 lat2 lon2 : ℝ) : ℝ :=
  jsMod (toDegrees (atan2 (bearingY lon1 lat2 lon2) (bearingX lat1 lon1 lat2 lon2)) + 360) 360

lemma atan2_zero_one : atan2 0 1 = 0 := by
  simp [atan2]

lemma atan2_mem_Ioc (y x : ℝ) : atan2 y x ∈ Set.Ioc (-Real.pi) Real.pi :=
  Complex.arg_mem_Ioc _

lemma haversineA_self (lat lon : ℝ) : haversineA lat lon lat lon = 0 := by
  simp [haversineA, toRadians]

lemma calculateDistance_self (lat lon : ℝ) : calculateDistance lat lon lat lon = 0 := by
  rw [calculateDistance, haversineA_self]
  norm_num [atan2_zero_one]

lemma haversineA_symm (lat1 lon1 lat2 lon2 : ℝ) :
    haversineA lat1 lon1 lat2 lon2 = haversineA lat2 lon2 lat1 lon1 := by
  have h : ∀ u v : ℝ, Real.sin (toRadians (u - v) / 2) = -Real.sin (toRadians (v - u) / 2) := by
    intro u v
    have huv : toRadians (u - v) = -toRadians (v - u) := by
      unfold toRadians; ring
    rw [huv, neg_div, Real.sin_neg]
  unfold haversineA
  rw [h lat2 lat1, h lon2 lon1]
  ring

lemma calculateDistance_symm (lat1 lon1 lat2 lon2 : ℝ) :
    calculateDistance lat1 lon1 lat2 lon2 = calculateDistance lat2 lon2 lat1 lon1 := by
  unfold calculateDistance
  rw [haversineA_symm]

lemma jsMod_360_mem (v : ℝ) (hv : 0 < v) : jsMod v 360 ∈ Set.Ico (0 : ℝ) 360 := by
  have hq : 0 ≤ v / 360 := by positivity
  have htr : realTrunc (v / 360) = ⌊v / 360⌋ := by
    simp [realTrunc, hq]
  have hfr : jsMod v 360 = 360 * Int.fract (v / 360) := by
    rw [jsMod, htr, Int.fract]
    field_simp
  constructor
  · rw [hfr]
    have := Int.fract_nonneg (v / 360)
    positivity
  · rw [hfr]
    have h1 : Int.fract (v / 360) < 1 := Int.fract_lt_one _
    nlinarith

lemma calculateBearing_mem (lat1 lon1 lat2 lon2 : ℝ) :
    calculateBearing lat1 lon1 lat2 lon2 ∈ Set.Ico (0 : ℝ) 360 := by
  unfold calculateBearing
  apply jsMod_360_mem
  have harg := atan2_mem_Ioc (bearingY lon1 lat2 lon2) (bearingX lat1 lon1 lat2 lon2)
  have hpi : 0 < Real.pi := Real.pi_pos
  have hlow : -Real.pi < atan2 (bearingY lon1 lat2 lon2) (bearingX lat1 lon1 lat2 lon2) :=
    harg.1
  have hdeg : -180 < toDegrees (atan2 (bearingY lon1 lat2 lon2) (bearingX lat1 lon1 lat2 lon2)) := by
    unfold toDegrees
    rw [lt_div_iff₀ hpi]
    nlinarith
  linarith

/-- Waypoint type tag of the navigation data model. -/
inductive WaypointType where
  | start
  | waypoint
  | destination
deriving DecidableEq, Repr, Inhabited

/-- Waypoint record of the navigation data model.  The optional Date
timestamp is modelled as an optional natural number. -/
structure Waypoint where
  id : String
  lat : ℝ
  lon : ℝ
  name : String
  type : WaypointType
  timestamp : Option ℕ
deriving Inhabited

/-- Route record of the navigation data model.  The Date createdAt is
modelled as a natural number. -/
structure Route where
  id : String
  name : String
  waypoints : List Waypoint
  totalDistance : ℝ
  estimatedTime : ℝ
  averageSpeed : ℝ
  createdAt : ℕ
deriving Inhabited

/-- The currentPosition argument of calculateNavigationState. -/
structure CurrentPosition where
  lat : ℝ
  lon : ℝ
  heading : ℝ
  speed : ℝ
deriving Inhabited

/-- NavigationState snapshot of the navigation data model. -/
structure NavigationState where
  currentPosition : CurrentPosition
  heading : ℝ
  speed : ℝ
  nextWaypoint : Option Waypoint
  distanceToNext : ℝ
  bearingToNext : ℝ
  etaToNext : ℝ
  progress : ℝ
deriving Inhabited

/-- calculateRouteDistance: sum of calculateDistance over consecutive
waypoint pairs. -/
def calculateRouteDistance : List Waypoint → ℝ
  | [] => 0
  | [_] => 0
  | a :: b :: rest =>
      calculateDistance a.lat a.lon b.lat b.lon + calculateRouteDistance (b :: rest)

/-- calculateETA: minutes to travel distanceNM at speedKnots, 0 when the
speed is 0. -/
def calculateETA (distanceNM speedKnots : ℝ) : ℝ :=
  if speedKnots = 0 then 0 else distanceNM / speedKnots * 60

/-- calculateNavigationState from the route planning service.  The
JavaScript lookup waypoints[currentWaypointIndex + 1] || null is the
optional list lookup; the completed-distance loop over indices strictly
below currentWaypointIndex is the route distance of the prefix of length
currentWaypointIndex + 1. -/
def calculateNavigationState (currentPosition : CurrentPosition) (route : Route)
    (currentWaypointIndex : ℕ) : NavigationState :=
  match route.waypoints[currentWaypointIndex + 1]? with
  | none =>
      { currentPosition := currentPosition
        heading := currentPosition.heading
        speed := currentPosition.speed
        nextWaypoint := none
        distanceToNext := 0
        bearingToNext := 0
        etaToNext := 0
        progress := 100 }
  | some nextWaypoint =>
      let distanceToNext := calculateDistance currentPosition.lat currentPosition.lon
        nextWaypoint.lat nextWaypoint.lon
      let bearingToNext := calculateBearing currentPosition.lat currentPosition.lon
        nextWaypoint.lat nextWaypoint.lon
      let etaToNext := calculateETA distanceToNext currentPosition.speed
      let totalDistance := calculateRouteDistance route.waypoints
      let completedDistance :=
        calculateRouteDistance (route.waypoints.take (currentWaypointIndex + 1))
      { currentPosition := currentPosition
        heading := currentPosition.heading
        speed := currentPosition.speed
        nextWaypoint := some nextWaypoint
        distanceToNext := distanceToNext
        bearingToNext := bearingToNext
        etaToNext := etaToNext
        progress := completedDistance / totalDistance * 100 }

/-- isNearWaypoint: great-circle distance at most the threshold. -/
def isNearWaypoint (currentLat currentLon waypointLat waypointLon thresholdNM : ℝ) : Prop :=
  calculateDistance currentLat currentLon waypointLat waypointLon ≤ thresholdNM

/-- JavaScript Array.prototype.splice insertion of one element at a given
index; indices beyond the length are clamped to the length. -/
def spliceInsert (l : List α) (i : ℕ) (a : α) : List α :=
  l.take i ++ a :: l.drop i

/-- addWaypoint from the route planning service.  The fresh id produced
by generateId (timestamp plus random suffix) is modelled as the explicit
argument newId; omitting insertIndex inserts immediately before the
destination. -/
def addWaypoint (route : Route) (lat lon : ℝ) (nm : String)
    (insertIndex : Option ℕ) (newId : String) : Route :=
  let newWaypoint : Waypoint :=
    { id := newId, lat := lat, lon := lon, name := nm,
      type := WaypointType.waypoint, timestamp := none }
  let newWaypoints :=
    match insertIndex with
    | some i => spliceInsert route.waypoints i newWaypoint
    | none => spliceInsert route.waypoints (route.waypoints.length - 1) newWaypoint
  let totalDistance := calculateRouteDistance newWaypoints
  { route with
      waypoints := newWaypoints
      totalDistance := totalDistance
      estimatedTime := totalDistance / route.averageSpeed }

/-- The leg distance between waypoints i and i+1 of a waypoint list. -/
def legDist (ws : List Waypoint) (i : ℕ) : ℝ :=
  calculateDistance (ws.getD i default).lat (ws.getD i default).lon
    (ws.getD (i + 1) default).lat (ws.getD (i + 1) default).lon

lemma calculateRouteDistance_take (idx : ℕ) :
    ∀ ws : List Waypoint, idx + 1 < ws.length →
      calculateRouteDistance (ws.take (idx + 1)) = ∑ i in Finset.range idx, legDist ws i := by
  induction idx with
  | zero =>
      intro ws hlen
      match ws, hlen with
      | a :: t, _ => simp [calculateRouteDistance]
  | succ n ih =>
      intro ws hlen
      match ws, hlen with
      | a :: b :: t, hlen =>
        have hlen2 : n + 1 < (b :: t).length := by
          simpa [Nat.succ_lt_succ_iff] using hlen
        have hrec := ih (b :: t) hlen2
        have htake : (a :: b :: t).take (n + 1 + 1) = a :: (b :: t).take (n + 1) := rfl
        rw [htake]
        have hstep : calculateRouteDistance (a :: (b :: t).take (n + 1)) =
            calculateDistance a.lat a.lon b.lat b.lon +
              calculateRouteDistance ((b :: t).take (n + 1)) := by
          simp [calculateRouteDistance, List.take_cons]
        rw [hstep, hrec, Finset.sum_range_succ']
        have hshift : ∀ i : ℕ, legDist (a :: b :: t) (i + 1) = legDist (b :: t) i := by
          intro i
          simp [legDist]
        have hzero : legDist (a :: b :: t) 0 = calculateDistance a.lat a.lon b.lat b.lon := by
          simp [legDist]
        simp only [hshift, hzero]
        ring

/-- Claim C9: for all coordinate pairs, the distance from a point to
itself is 0, calculateDistance is symmetric in its two endpoints, and
calculateBearing always lies in the interval [0, 360). -/
theorem C9_distance_self_symm_bearing_range (lat1 lon1 lat2 lon2 : ℝ) :
    calculateDistance lat1 lon1 lat1 lon1 = 0 ∧
      calculateDistance lat1 lon1 lat2 lon2 = calculateDistance lat2 lon2 lat1 lon1 ∧
      calculateBearing lat1 lon1 lat2 lon2 ∈ Set.Ico (0 : ℝ) 360 :=
  ⟨calculateDistance_self lat1 lon1, calculateDistance_symm lat1 lon1 lat2 lon2,
    calculateBearing_mem lat1 lon1 lat2 lon2⟩

/-- Claim C5: at or past the last waypoint index, calculateNavigationState
returns the terminal snapshot (no next waypoint, zero distance, bearing
and eta, progress 100) regardless of the current position; strictly
before the last index, progress is the sum of the leg distances of all
waypoint indices strictly below currentWaypointIndex, divided by the
total route distance, times 100. -/
theorem C5_navigation_state_terminal_and_progress
    (pos : CurrentPosition) (route : Route) (idx : ℕ) :
    (route.waypoints.length - 1 ≤ idx →
      (calculateNavigationState pos route idx).nextWaypoint = none ∧
        (calculateNavigationState pos route idx).distanceToNext = 0 ∧
        (calculateNavigationState pos route idx).bearingToNext = 0 ∧
        (calculateNavigationState pos route idx).etaToNext = 0 ∧
        (calculateNavigationState pos route idx).progress = 100) ∧
    (idx + 1 < route.waypoints.length →
      (calculateNavigationState pos route idx).progress =
        (∑ i in Finset.range idx, legDist route.waypoints i) /
          calculateRouteDistance route.waypoints * 100) := by
  constructor
  · intro hpast
    have hnone : route.waypoints[idx + 1]? = none := by
      rw [List.getElem?_eq_none_iff]
      omega
    simp [calculateNavigationState, hnone]
  · intro hlt
    have hw : route.waypoints[idx + 1]? = some route.waypoints[idx + 1] :=
      List.getElem?_eq_getElem hlt
    rw [← calculateRouteDistance_take idx route.waypoints hlt]
    simp [calculateNavigationState, hw]

/-- Witness for claim C5 on a concrete two-waypoint route. -/
def wpA : Waypoint :=
  { id := "start", lat := 0, lon := 0, name := "A",
    type := WaypointType.start, timestamp := none }

/-- Destination waypoint of the concrete witness route. -/
def wpB : Waypoint :=
  { id := "destination", lat := 0, lon := 0, name := "B",
    type := WaypointType.destination, timestamp := none }

/-- Concrete two-waypoint route used by witnesses. -/
def routeAB : Route :=
  { id := "r1", name := "A to B", waypoints := [wpA, wpB],
    totalDistance := 0, estimatedTime := 0, averageSpeed := 5, createdAt := 0 }

/-- Concrete position used by witnesses. -/
def pos0 : CurrentPosition := { lat := 0, lon := 0, heading := 0, speed := 0 }

theorem C5_navigation_state_witness :
    (calculateNavigationState pos0 routeAB 1).nextWaypoint = none ∧
      (calculateNavigationState pos0 routeAB 1).progress = 100 ∧
      (calculateNavigationState pos0 routeAB 0).progress =
        (∑ i in Finset.range 0, legDist routeAB.waypoints i) /
          calculateRouteDistance routeAB.waypoints * 100 := by
  have h1 := (C5_navigation_state_terminal_and_progress pos0 routeAB 1).1 (by simp [routeAB])
  have h2 := (C5_navigation_state_terminal_and_progress pos0 routeAB 0).2 (by simp [routeAB])
  exact ⟨h1.1, h1.2.2.2.2, h2⟩

lemma spliceInsert_cons_succ (w : α) (t : List α) (i : ℕ) (a : α) :
    spliceInsert (w :: t) (i + 1) a = w :: spliceInsert t i a := by
  simp [spliceInsert]

lemma spliceInsert_head (ws : List α) (i : ℕ) (a : α) (hi : 1 ≤ i) (hne : ws ≠ []) :
    (spliceInsert ws i a).head? = ws.head? := by
  match ws, i, hi with
  | w :: t, j + 1, _ => rw [spliceInsert_cons_succ]; rfl

lemma spliceInsert_getLast (ws : List α) (i : ℕ) (a : α) (hi : i < ws.length) :
    (spliceInsert ws i a).getLast? = ws.getLast? := by
  induction ws generalizing i with
  | nil => simp at hi
  | cons w t ih =>
      match i with
      | 0 =>
          show (a :: w :: t).getLast? = (w :: t).getLast?
          exact List.getLast?_cons_cons
      | j + 1 =>
          rw [spliceInsert_cons_succ]
          have hj : j < t.length := by simpa using hi
          have hrec := ih j hj
          match t, hj with
          | b :: u, _ =>
              calc (w :: spliceInsert (b :: u) j a).getLast?
                  = (spliceInsert (b :: u) j a).getLast? := by
                    match hsp : spliceInsert (b :: u) j a with
                    | [] => simp [spliceInsert] at hsp
                    | c :: v => exact List.getLast?_cons_cons
                _ = (b :: u).getLast? := hrec
                _ = (w :: b :: u).getLast? := List.getLast?_cons_cons.symm

/-- Counterexample for claim C7: on a route whose first waypoint is
start-typed and last destination-typed, addWaypoint with insertIndex 0
yields a route whose first waypoint is the inserted waypoint-typed node,
so the start type is not preserved. -/
theorem C7_addWaypoint_counterexample :
    routeAB.waypoints.head?.map Waypoint.type = some WaypointType.start ∧
      routeAB.waypoints.getLast?.map Waypoint.type = some WaypointType.destination ∧
      (addWaypoint routeAB 0 0 "W" (some 0) "id-w").waypoints.head?.map Waypoint.type =
        some WaypointType.waypoint := by
  refine ⟨by simp [routeAB, wpA], by simp [routeAB, wpA, wpB], ?_⟩
  simp [addWaypoint, spliceInsert, routeAB]

/-- Claim C7 (amended): addWaypoint recomputes totalDistance as the
route distance of the full new waypoint sequence and estimatedTime as
totalDistance divided by averageSpeed for EVERY insertIndex (and, the
embedding being a pure function, returns a new Route value without
touching the input); the start and destination types of the first and
last waypoint are preserved when insertIndex is omitted or lies between
1 and waypoints.length - 1, but not for every insertIndex: with
insertIndex 0 the inserted node becomes the first waypoint, and at or
past the length it becomes the last. -/
theorem C7_addWaypoint_invariants (route : Route) (lat lon : ℝ) (nm newId : String)
    (insertIndex : Option ℕ) :
    ((addWaypoint route lat lon nm insertIndex newId).totalDistance =
        calculateRouteDistance (addWaypoint route lat lon nm insertIndex newId).waypoints ∧
      (addWaypoint route lat lon nm insertIndex newId).estimatedTime =
        (addWaypoint route lat lon nm insertIndex newId).totalDistance /
          route.averageSpeed) ∧
    (2 ≤ route.waypoints.length →
      route.waypoints.head?.map Waypoint.type = some WaypointType.start →
      route.waypoints.getLast?.map Waypoint.type = some WaypointType.destination →
      (insertIndex = none ∨
        ∃ i, insertIndex = some i ∧ 1 ≤ i ∧ i ≤ route.waypoints.length - 1) →
      (addWaypoint route lat lon nm insertIndex newId).waypoints.head?.map Waypoint.type =
          some WaypointType.start ∧
        (addWaypoint route lat lon nm insertIndex newId).waypoints.getLast?.map Waypoint.type =
          some WaypointType.destination) := by
  refine ⟨⟨rfl, rfl⟩, ?_⟩
  intro hlen hfirst hlast hidx
  have hne : route.waypoints ≠ [] := by
    intro h
    rw [h] at hlen
    simp at hlen
  have hins : ∃ i, 1 ≤ i ∧ i ≤ route.waypoints.length - 1 ∧
      (addWaypoint route lat lon nm insertIndex newId).waypoints =
        spliceInsert route.waypoints i
          { id := newId, lat := lat, lon := lon, name := nm,
            type := WaypointType.waypoint, timestamp := none } := by
    rcases hidx with hnone | ⟨i, hsome, h1, h2⟩
    · subst hnone
      refine ⟨route.waypoints.length - 1, ?_, le_refl _, rfl⟩
      omega
    · subst hsome
      exact ⟨i, h1, h2, rfl⟩
  obtain ⟨i, hi1, hi2, hws⟩ := hins
  have hilt : i < route.waypoints.length := by omega
  constructor
  · rw [hws, spliceInsert_head _ _ _ hi1 hne]
    exact hfirst
  · rw [hws, spliceInsert_getLast _ _ _ hilt]
    exact hlast

theorem C7_addWaypoint_witness :
    ((addWaypoint routeAB 0 0 "W" (some 0) "id-w").totalDistance =
        calculateRouteDistance (addWaypoint routeAB 0 0 "W" (some 0) "id-w").waypoints ∧
      (addWaypoint routeAB 0 0 "W" (some 0) "id-w").estimatedTime =
        (addWaypoint routeAB 0 0 "W" (some 0) "id-w").totalDistance /
          routeAB.averageSpeed) ∧
      (addWaypoint routeAB 0 0 "W" none "id-w").waypoints.head?.map Waypoint.type =
        some WaypointType.start ∧
      (addWaypoint routeAB 0 0 "W" none "id-w").waypoints.getLast?.map Waypoint.type =
        some WaypointType.destination := by
  have h0 := (C7_addWaypoint_invariants routeAB 0 0 "W" "id-w" (some 0)).1
  have h := (C7_addWaypoint_invariants routeAB 0 0 "W" "id-w" none).2
    (by simp [routeAB]) (by simp [routeAB, wpA]) (by simp [routeAB, wpA, wpB])
    (Or.inl rfl)
  exact ⟨h0, h.1, h.2⟩

/-- Hazard severity enumeration of NauticalHazard. -/
inductive HazardSeverity where
  | info
  | warning
  | danger
  | critical
deriving DecidableEq, Repr, Inhabited

/-- Hazard type enumeration of NauticalHazard. -/
inductive HazardType where
  | reef
  | shallowWater
  | wreck
  | rock
  | restrictedArea
  | militaryZone
  | anchorageProhibited
  | fishingProhibited
  | speedLimit
  | trafficSeparation
  | cableArea
  | pipeline
deriving DecidableEq, Repr, Inhabited

/-- The source string of a hazard type, used by suggestHazardAvoidance
for the avoidance waypoint name. -/
def HazardType.tag : HazardType → String
  | reef => "reef"
  | shallowWater => "shallow_water"
  | wreck => "wreck"
  | rock => "rock"
  | restrictedArea => "restricted_area"
  | militaryZone => "military_zone"
  | anchorageProhibited => "anchorage_prohibited"
  | fishingProhibited => "fishing_prohibited"
  | speedLimit => "speed_limit"
  | trafficSeparation => "traffic_separation"
  | cableArea => "cable_area"
  | pipeline => "pipeline"

/-- A latitude/longitude pair. -/
@[ext]
structure LatLon where
  lat : ℝ
  lon : ℝ
deriving Inhabited

/-- NauticalHazard record from nauticalChartService.ts. -/
structure NauticalHazard where
  id : String
  type : HazardType
  lat : ℝ
  lon : ℝ
  radius : Option ℝ
  polygon : Option (List LatLon)
  depth : Option ℝ
  description : Option String
  severity : HazardSeverity
  source : String
deriving Inhabited

/-- The Overpass tag fields read by parseDepth.  The seamark:depth
string tag is modelled as an optional already-parsed number (the source
applies parseFloat to a truthy tag value). -/
structure SeamarkDepthTags where
  seamarkDepth : Option ℝ
  rockWaterLevel : Option String
deriving Inhabited

/-- parseDepth from nauticalChartService.ts: an explicit numeric depth
tag wins; an awash rock is depth 0; a rock that covers and uncovers with
the tide is the sentinel -1; anything else is unknown. -/
def parseDepth (tags : SeamarkDepthTags) : Option ℝ :=
  match tags.seamarkDepth with
  | some d => some d
  | none =>
      match tags.rockWaterLevel with
      | some lvl =>
          if lvl = "awash" then some 0
          else if lvl = "covers" then some (-1) else none
      | none => none

/-- x coordinate of the local equirectangular projection used in
distanceFromLineSegment: lon * 111320 * cos(lat in radians). -/
def toMetersX (lat lon : ℝ) : ℝ := lon * 111320 * Real.cos (lat * Real.pi / 180)

/-- y coordinate of the local equirectangular projection:
lat * 111320. -/
def toMetersY (lat : ℝ) : ℝ := lat * 111320

/-- distanceFromLineSegment from nauticalChartService.ts: distance in
meters from a point to a line segment, with the projection parameter
clamped to [0, 1]. -/
def distanceFromLineSegment (point lineStart lineEnd : LatLon) : ℝ :=
  let px := toMetersX point.lat point.lon
  let py := toMetersY point.lat
  let ax := toMetersX lineStart.lat lineStart.lon
  let ay := toMetersY lineStart.lat
  let bx := toMetersX lineEnd.lat lineEnd.lon
  let bY := toMetersY lineEnd.lat
  let dx := bx - ax
  let dy := bY - ay
  let lengthSquared := dx * dx + dy * dy
  if lengthSquared = 0 then
    Real.sqrt ((px - ax) * (px - ax) + (py - ay) * (py - ay))
  else
    let t := max 0 (min 1 (((px - ax) * dx + (py - ay) * dy) / lengthSquared))
    let closestX := ax + t * dx
    let closestY := ay + t * dy
    Real.sqrt ((px - closestX) * (px - closestX) + (py - closestY) * (py - closestY))

/-- One entry of the hazards list of a RouteAnalysis. -/
structure AttachedHazard where
  hazard : NauticalHazard
  distanceFromRoute : ℝ
  waypointSegment : ℕ
deriving Inhabited

/-- The route-hazard attachment loop of analyzeRouteHazards: for every
consecutive waypoint pair (segment i) and every fetched hazard, the
hazard is attached to segment i when its segment distance is strictly
below safetyMargin plus the hazard radius (default 100 m). -/
def routeHazardsList (waypoints : List LatLon) (hazards : List NauticalHazard)
    (safetyMargin : ℝ) : List AttachedHazard :=
  (List.range (waypoints.length - 1)).flatMap (fun i =>
    hazards.filterMap (fun hz =>
      let d := distanceFromLineSegment { lat := hz.lat, lon := hz.lon }
        (waypoints.getD i default) (waypoints.getD (i + 1) default)
      if d < safetyMargin + hz.radius.getD 100 then
        some { hazard := hz, distanceFromRoute := d, waypointSegment := i }
      else none))

/-- The binary step of the minimum-depth tracking: keep the smaller
defined depth. -/
def optMin (acc : Option ℝ) (d : ℝ) : Option ℝ :=
  match acc with
  | none => some d
  | some m => if d < m then some d else some m

/-- One hazard step of the minimum-depth tracking in
analyzeRouteHazards: hazards without a depth are skipped. -/
def minDepthStep (acc : Option ℝ) (hz : NauticalHazard) : Option ℝ :=
  match hz.depth with
  | none => acc
  | some d => optMin acc d

/-- The minimum-depth tracking as written in the source: the fold over
all fetched hazards is repeated inside the loop over route segments. -/
def minDepthLoop (waypoints : List LatLon) (hazards : List NauticalHazard) : Option ℝ :=
  (List.range (waypoints.length - 1)).foldl
    (fun acc _ => hazards.foldl minDepthStep acc) none

/-- RouteAnalysis, without the display-only warnings and recommendations
string lists, which no claim mentions.  isSafe is the truth value of the
safety-verdict expression of the source. -/
structure RouteAnalysis where
  isSafe : Prop
  hazards : List AttachedHazard
  minDepth : Option ℝ

/-- The depth clause of the safety verdict:
minDepth === null || minDepth >= vesselDraft + 1.0. -/
def depthSafe (minDepth : Option ℝ) (vesselDraft : ℝ) : Prop :=
  match minDepth with
  | none => True
  | some d => vesselDraft + 1.0 ≤ d

/-- analyzeRouteHazards from nauticalChartService.ts, with the hazard
list fetched for the padded bounding box passed explicitly (the fetch is
network I/O). -/
def analyzeRouteHazards (waypoints : List LatLon) (hazards : List NauticalHazard)
    (vesselDraft safetyMargin : ℝ) : RouteAnalysis :=
  let routeHazards := routeHazardsList waypoints hazards safetyMargin
  let minDepth := minDepthLoop waypoints hazards
  { isSafe :=
      (routeHazards.filter
        (fun h => h.hazard.severity == HazardSeverity.critical)).length = 0 ∧
        depthSafe minDepth vesselDraft
    hazards := routeHazards
    minDepth := minDepth }

/-- The result record of suggestHazardAvoidance. -/
structure AvoidanceWaypoint where
  lat : ℝ
  lon : ℝ
  name : String
deriving Inhabited

/-- suggestHazardAvoidance from nauticalChartService.ts: midpoint of the
leg offset along the perpendicular unit vector by
(radius + safetyMargin) / 111320 * 1.5 degrees; null exactly when the
leg has zero length. -/
def suggestHazardAvoidance (hazard : NauticalHazard) (start finish : LatLon)
    (safetyMargin : ℝ) : Option AvoidanceWaypoint :=
  let hazardBuffer := hazard.radius.getD 100 + safetyMargin
  let midLat := (start.lat + finish.lat) / 2
  let midLon := (start.lon + finish.lon) / 2
  let dx := finish.lon - start.lon
  let dy := finish.lat - start.lat
  let len := Real.sqrt (dx * dx + dy * dy)
  if len = 0 then none
  else
    let perpX := -dy / len
    let perpY := dx / len
    let offsetDegrees := hazardBuffer / 111320 * 1.5
    some { lat := midLat + perpY * offsetDegrees,
           lon := midLon + perpX * offsetDegrees,
           name := "Avoid " ++ hazard.type.tag }

/-- requiresRerouting from nauticalChartService.ts. -/
def requiresRerouting (analysis : RouteAnalysis) : Prop :=
  ¬ analysis.isSafe ∨
    (analysis.hazards.any
      (fun h => h.hazard.severity == HazardSeverity.critical)) = true ∨
    (match analysis.minDepth with
     | none => False
     | some d => d < 1.0)

/-- Claim C2: requiresRerouting holds exactly when the analysis is not
safe, or some attached hazard has critical severity, or minDepth is
non-null and below the absolute floor 1.0 (independent of the vessel
draft). -/
theorem C2_requiresRerouting_iff (analysis : RouteAnalysis) :
    requiresRerouting analysis ↔
      ¬ analysis.isSafe ∨
        (∃ x ∈ analysis.hazards, x.hazard.severity = HazardSeverity.critical) ∨
        ∃ d, analysis.minDepth = some d ∧ d < 1.0 := by
  unfold requiresRerouting
  apply or_congr Iff.rfl
  apply or_congr
  · rw [List.any_eq_true]
    simp
  · cases hm : analysis.minDepth with
    | none =>
        show False ↔ _
        simp
    | some d =>
        show d < 1.0 ↔ _
        simp

/-- Membership in the attachment list of analyzeRouteHazards. -/
lemma mem_routeHazardsList (waypoints : List LatLon) (hazards : List NauticalHazard)
    (safetyMargin : ℝ) (x : AttachedHazard) :
    x ∈ routeHazardsList waypoints hazards safetyMargin ↔
      ∃ i < waypoints.length - 1, ∃ hz ∈ hazards,
        distanceFromLineSegment { lat := hz.lat, lon := hz.lon }
            (waypoints.getD i default) (waypoints.getD (i + 1) default) <
          safetyMargin + hz.radius.getD 100 ∧
        x = { hazard := hz,
              distanceFromRoute :=
                distanceFromLineSegment { lat := hz.lat, lon := hz.lon }
                  (waypoints.getD i default) (waypoints.getD (i + 1) default),
              waypointSegment := i } := by
  simp only [routeHazardsList, List.mem_flatMap, List.mem_filterMap, List.mem_range]
  constructor
  · rintro ⟨i, hi, hz, hhz, hsome⟩
    rw [Option.ite_none_right_eq_some, Option.some.injEq] at hsome
    exact ⟨i, hi, hz, hhz, hsome.1, hsome.2.symm⟩
  · rintro ⟨i, hi, hz, hhz, hd, hx⟩
    refine ⟨i, hi, hz, hhz, ?_⟩
    rw [Option.ite_none_right_eq_some, Option.some.injEq]
    exact ⟨hd, hx.symm⟩

/-- A critical hazard is attached to some segment exactly when a
critical fetched hazard lies within the buffer of some leg. -/
lemma exists_critical_attached (waypoints : List LatLon) (hazards : List NauticalHazard)
    (safetyMargin : ℝ) :
    (∃ x ∈ routeHazardsList waypoints hazards safetyMargin,
        x.hazard.severity = HazardSeverity.critical) ↔
      ∃ hz ∈ hazards, hz.severity = HazardSeverity.critical ∧
        ∃ i < waypoints.length - 1,
          distanceFromLineSegment { lat := hz.lat, lon := hz.lon }
              (waypoints.getD i default) (waypoints.getD (i + 1) default) <
            safetyMargin + hz.radius.getD 100 := by
  constructor
  · rintro ⟨x, hx, hcrit⟩
    rw [mem_routeHazardsList] at hx
    obtain ⟨i, hi, hz, hhz, hd, hxeq⟩ := hx
    subst hxeq
    exact ⟨hz, hhz, hcrit, i, hi, hd⟩
  · rintro ⟨hz, hhz, hcrit, i, hi, hd⟩
    exact ⟨_, (mem_routeHazardsList waypoints hazards safetyMargin _).mpr
      ⟨i, hi, hz, hhz, hd, rfl⟩, hcrit⟩

/-- The negation of the depth clause of the safety verdict. -/
lemma not_depthSafe (m : Option ℝ) (draft : ℝ) :
    ¬ depthSafe m draft ↔ ∃ d, m = some d ∧ d < draft + 1.0 := by
  cases m with
  | none => simp [depthSafe]
  | some d => simp [depthSafe, not_le]

/-- Claim C8: suggestHazardAvoidance returns null exactly on a
zero-length leg, and otherwise returns a point offset from the leg
midpoint perpendicularly to the leg (zero dot product with the leg
direction) at squared degree distance
((radius + safetyMargin) / 111320 * 1.5) squared. -/
theorem C8_suggestHazardAvoidance (hazard : NauticalHazard) (start finish : LatLon)
    (safetyMargin : ℝ) :
    (suggestHazardAvoidance hazard start finish safetyMargin = none ↔ start = finish) ∧
      (start ≠ finish →
        ∃ p, suggestHazardAvoidance hazard start finish safetyMargin = some p ∧
          p.name = "Avoid " ++ hazard.type.tag ∧
          (p.lat - (start.lat + finish.lat) / 2) * (finish.lat - start.lat) +
              (p.lon - (start.lon + finish.lon) / 2) * (finish.lon - start.lon) = 0 ∧
          (p.lat - (start.lat + finish.lat) / 2) ^ 2 +
              (p.lon - (start.lon + finish.lon) / 2) ^ 2 =
            ((hazard.radius.getD 100 + safetyMargin) / 111320 * 1.5) ^ 2) := by
  have hsqz : Real.sqrt ((finish.lon - start.lon) * (finish.lon - start.lon) +
      (finish.lat - start.lat) * (finish.lat - start.lat)) = 0 ↔ start = finish := by
    rw [Real.sqrt_eq_zero']
    constructor
    · intro h
      have h1 : (finish.lon - start.lon) * (finish.lon - start.lon) = 0 := by
        nlinarith [mul_self_nonneg (finish.lon - start.lon),
          mul_self_nonneg (finish.lat - start.lat)]
      have h2 : (finish.lat - start.lat) * (finish.lat - start.lat) = 0 := by
        nlinarith [mul_self_nonneg (finish.lon - start.lon),
          mul_self_nonneg (finish.lat - start.lat)]
      have hlon := mul_self_eq_zero.mp h1
      have hlat := mul_self_eq_zero.mp h2
      ext
      · linarith
      · linarith
    · intro h
      rw [h]
      simp
  constructor
  · simp only [suggestHazardAvoidance]
    split_ifs with h
    · simp [hsqz.mp h]
    · constructor
      · intro hc
        simp at hc
      · intro he
        exact absurd (hsqz.mpr he) h
  · intro hne
    have hL : Real.sqrt ((finish.lon - start.lon) * (finish.lon - start.lon) +
        (finish.lat - start.lat) * (finish.lat - start.lat)) ≠ 0 :=
      fun h0 => hne (hsqz.mp h0)
    simp only [suggestHazardAvoidance]
    rw [if_neg hL]
    refine ⟨_, rfl, rfl, ?_, ?_⟩
    · show ((start.lat + finish.lat) / 2 +
          (finish.lon - start.lon) /
            Real.sqrt ((finish.lon - start.lon) * (finish.lon - start.lon) +
              (finish.lat - start.lat) * (finish.lat - start.lat)) *
            ((hazard.radius.getD 100 + safetyMargin) / 111320 * 1.5) -
          (start.lat + finish.lat) / 2) * (finish.lat - start.lat) +
        ((start.lon + finish.lon) / 2 +
          -(finish.lat - start.lat) /
            Real.sqrt ((finish.lon - start.lon) * (finish.lon - start.lon) +
              (finish.lat - start.lat) * (finish.lat - start.lat)) *
            ((hazard.radius.getD 100 + safetyMargin) / 111320 * 1.5) -
          (start.lon + finish.lon) / 2) * (finish.lon - start.lon) = 0
      ring
    · have hL2 : Real.sqrt ((finish.lon - start.lon) * (finish.lon - start.lon) +
          (finish.lat - start.lat) * (finish.lat - start.lat)) ^ 2 =
          (finish.lon - start.lon) * (finish.lon - start.lon) +
            (finish.lat - start.lat) * (finish.lat - start.lat) :=
        Real.sq_sqrt (add_nonneg (mul_self_nonneg _) (mul_self_nonneg _))
      show ((start.lat + finish.lat) / 2 +
          (finish.lon - start.lon) /
            Real.sqrt ((finish.lon - start.lon) * (finish.lon - start.lon) +
              (finish.lat - start.lat) * (finish.lat - start.lat)) *
            ((hazard.radius.getD 100 + safetyMargin) / 111320 * 1.5) -
          (start.lat + finish.lat) / 2) ^ 2 +
        ((start.lon + finish.lon) / 2 +
          -(finish.lat - start.lat) /
            Real.sqrt ((finish.lon - start.lon) * (finish.lon - start.lon) +
              (finish.lat - start.lat) * (finish.lat - start.lat)) *
            ((hazard.radius.getD 100 + safetyMargin) / 111320 * 1.5) -
          (start.lon + finish.lon) / 2) ^ 2 =
        ((hazard.radius.getD 100 + safetyMargin) / 111320 * 1.5) ^ 2
      set L := Real.sqrt ((finish.lon - start.lon) * (finish.lon - start.lon) +
        (finish.lat - start.lat) * (finish.lat - start.lat)) with hLdef
      have hstep : ((start.lat + finish.lat) / 2 +
          (finish.lon - start.lon) / L *
            ((hazard.radius.getD 100 + safetyMargin) / 111320 * 1.5) -
          (start.lat + finish.lat) / 2) ^ 2 +
        ((start.lon + finish.lon) / 2 +
          -(finish.lat - start.lat) / L *
            ((hazard.radius.getD 100 + safetyMargin) / 111320 * 1.5) -
          (start.lon + finish.lon) / 2) ^ 2 =
          ((finish.lon - start.lon) * (finish.lon - start.lon) +
            (finish.lat - start.lat) * (finish.lat - start.lat)) / L ^ 2 *
            ((hazard.radius.getD 100 + safetyMargin) / 111320 * 1.5) ^ 2 := by
        ring
      rw [hstep, ← hL2, div_self (pow_ne_zero 2 hL), one_mul]

/-- Concrete first waypoint (0, 0) of the specification example leg. -/
def stPoint : LatLon := { lat := 0, lon := 0 }

/-- Concrete second waypoint (0, 1) of the specification example leg. -/
def enPoint : LatLon := { lat := 0, lon := 1 }

/-- The critical hazard of the specification example: at (0, 0.5) with
radius 100 m. -/
def criticalHazard : NauticalHazard :=
  { id := "hz1", type := HazardType.rock, lat := 0, lon := 0.5,
    radius := some 100, polygon := none, depth := none, description := none,
    severity := HazardSeverity.critical, source := "osm" }

theorem C8_suggestHazardAvoidance_witness :
    (suggestHazardAvoidance criticalHazard stPoint enPoint 500 = none ↔ stPoint = enPoint) ∧
      ∃ p, suggestHazardAvoidance criticalHazard stPoint enPoint 500 = some p ∧
        p.name = "Avoid " ++ criticalHazard.type.tag := by
  have h := C8_suggestHazardAvoidance criticalHazard stPoint enPoint 500
  have hne : stPoint ≠ enPoint := by
    intro he
    have hcontra := congrArg LatLon.lon he
    simp [stPoint, enPoint] at hcontra
  obtain ⟨p, hp, hname, hperp, hnorm⟩ := h.2 hne
  exact ⟨h.1, p, hp, hname⟩

/-- Merge of two optional minima. -/
def optMinMerge : Option ℝ → Option ℝ → Option ℝ
  | none, b => b
  | some a, none => some a
  | some a, some b => some (min a b)

lemma optMin_eq_merge (acc : Option ℝ) (d : ℝ) : optMin acc d = optMinMerge acc (some d) := by
  cases acc with
  | none => rfl
  | some m =>
      simp only [optMin, optMinMerge]
      split_ifs with h
      · rw [min_eq_right h.le]
      · rw [min_eq_left (not_lt.mp h)]

lemma optMinMerge_assoc (x y z : Option ℝ) :
    optMinMerge (optMinMerge x y) z = optMinMerge x (optMinMerge y z) := by
  cases x <;> cases y <;> cases z <;> simp [optMinMerge, min_assoc]

lemma foldl_optMin_eq (ds : List ℝ) :
    ∀ acc, ds.foldl optMin acc = optMinMerge acc (ds.foldl optMin none) := by
  induction ds with
  | nil =>
      intro acc
      cases acc <;> rfl
  | cons d t ih =>
      intro acc
      have h1 : (d :: t).foldl optMin acc = t.foldl optMin (optMin acc d) := rfl
      have h2 : (d :: t).foldl optMin none = t.foldl optMin (optMin none d) := rfl
      rw [h1, h2, ih (optMin acc d), ih (optMin none d), optMin_eq_merge acc d]
      have h3 : optMin none d = some d := rfl
      rw [h3, optMinMerge_assoc]

/-- The fold of optMin from none computes the attained minimum of the
list. -/
lemma foldl_optMin_none_spec (ds : List ℝ) :
    (ds.foldl optMin none = none ↔ ds = []) ∧
      ∀ m, ds.foldl optMin none = some m → m ∈ ds ∧ ∀ e ∈ ds, m ≤ e := by
  induction ds with
  | nil =>
      refine ⟨by simp, ?_⟩
      intro m h
      cases h
  | cons d t ih =>
      have hstep : (d :: t).foldl optMin none = optMinMerge (some d) (t.foldl optMin none) := by
        have h2 : (d :: t).foldl optMin none = t.foldl optMin (optMin none d) := rfl
        have h3 : optMin none d = some d := rfl
        rw [h2, h3, foldl_optMin_eq]
      cases hM : t.foldl optMin none with
      | none =>
          have ht : t = [] := ih.1.mp hM
          rw [hstep, hM]
          constructor
          · simp [optMinMerge]
          · intro m hm
            simp only [optMinMerge, Option.some.injEq] at hm
            subst hm
            subst ht
            exact ⟨List.mem_singleton_self d, by intro e he; simp at he; rw [he]⟩
      | some mt =>
          obtain ⟨hmem, hbound⟩ := ih.2 mt hM
          rw [hstep, hM]
          constructor
          · simp [optMinMerge]
          · intro m hm
            simp only [optMinMerge, Option.some.injEq] at hm
            subst hm
            constructor
            · rcases le_total d mt with h | h
              · rw [min_eq_left h]
                exact List.mem_cons_self d t
              · rw [min_eq_right h]
                exact List.mem_cons_of_mem d hmem
            · intro e he
              rcases List.mem_cons.mp he with he | he
              · rw [he] at *
                exact min_le_left _ _
              · exact le_trans (min_le_right _ _) (hbound e he)

lemma foldl_minDepthStep_eq (hazards : List NauticalHazard) :
    ∀ acc, hazards.foldl minDepthStep acc =
      (hazards.filterMap NauticalHazard.depth).foldl optMin acc := by
  induction hazards with
  | nil => intro acc; rfl
  | cons hz t ih =>
      intro acc
      have h1 : (hz :: t).foldl minDepthStep acc = t.foldl minDepthStep (minDepthStep acc hz) := rfl
      rw [h1]
      cases hd : hz.depth with
      | none =>
          have hstep : minDepthStep acc hz = acc := by simp [minDepthStep, hd]
          rw [hstep, ih]
          congr 1
          simp [List.filterMap_cons, hd]
      | some d =>
          have hstep : minDepthStep acc hz = optMin acc d := by simp [minDepthStep, hd]
          rw [hstep, ih]
          have hfm : (hz :: t).filterMap NauticalHazard.depth =
              d :: t.filterMap NauticalHazard.depth := by
            simp [List.filterMap_cons, hd]
          rw [hfm]
          rfl

lemma foldl_const_idem (g : Option ℝ → Option ℝ) (hg : g (g none) = g none) :
    ∀ n, 1 ≤ n → (List.range n).foldl (fun acc _ => g acc) none = g none := by
  intro n
  induction n with
  | zero => intro h; exact absurd h (by norm_num)
  | succ k ih =>
      intro _
      rw [List.range_succ, List.foldl_append]
      rcases Nat.eq_zero_or_pos k with hk | hk
      · subst hk
        simp
      · rw [ih hk]
        simpa using hg

/-- With at least two waypoints, the per-segment repetition of the
minimum-depth fold collapses to a single pass over all hazards. -/
lemma minDepthLoop_eq (waypoints : List LatLon) (hazards : List NauticalHazard)
    (hlen : 2 ≤ waypoints.length) :
    minDepthLoop waypoints hazards = hazards.foldl minDepthStep none := by
  have hidem : hazards.foldl minDepthStep (hazards.foldl minDepthStep none) =
      hazards.foldl minDepthStep none := by
    rw [foldl_minDepthStep_eq, foldl_minDepthStep_eq, foldl_optMin_eq]
    cases (hazards.filterMap NauticalHazard.depth).foldl optMin none with
    | none => rfl
    | some m => simp [optMinMerge]
  unfold minDepthLoop
  exact foldl_const_idem _ hidem (waypoints.length - 1) (by omega)

/-- The safety verdict of analyzeRouteHazards, unfolded. -/
lemma isSafe_iff (waypoints : List LatLon) (hazards : List NauticalHazard)
    (vesselDraft safetyMargin : ℝ) :
    (analyzeRouteHazards waypoints hazards vesselDraft safetyMargin).isSafe ↔
      (∀ x ∈ routeHazardsList waypoints hazards safetyMargin,
        ¬ x.hazard.severity = HazardSeverity.critical) ∧
        depthSafe (minDepthLoop waypoints hazards) vesselDraft := by
  show ((routeHazardsList waypoints hazards safetyMargin).filter
      (fun h => h.hazard.severity == HazardSeverity.critical)).length = 0 ∧
      depthSafe (minDepthLoop waypoints hazards) vesselDraft ↔ _
  rw [List.length_eq_zero, List.filter_eq_nil_iff]
  simp

/-- The example segment distance of the specification: the hazard at
(0, 0.5) lies exactly on the leg from (0, 0) to (0, 1), at distance 0. -/
lemma dist_seg_concrete :
    distanceFromLineSegment { lat := criticalHazard.lat, lon := criticalHazard.lon }
      stPoint enPoint = 0 := by
  simp only [distanceFromLineSegment, toMetersX, toMetersY, stPoint, enPoint, criticalHazard]
  norm_num [Real.cos_zero]

/-- Claim C1: for every fetched hazard list, waypoint sequence with at
least two waypoints, vessel draft and safety margin, the analysis is
unsafe exactly when some critical hazard lies within safetyMargin plus
its radius (default 100 m) of some route leg, or the known minimum depth
is below vesselDraft + 1.0; and on the concrete leg (0,0)-(0,1) with the
critical radius-100 hazard at (0,0.5) and safety margin 500 the result
is unsafe with that hazard attached to segment 0. -/
theorem C1_analyzeRouteHazards_isSafe (waypoints : List LatLon)
    (hazards : List NauticalHazard) (vesselDraft safetyMargin : ℝ)
    (hlen : 2 ≤ waypoints.length) :
    (¬ (analyzeRouteHazards waypoints hazards vesselDraft safetyMargin).isSafe ↔
      ((∃ hz ∈ hazards, hz.severity = HazardSeverity.critical ∧
          ∃ i < waypoints.length - 1,
            distanceFromLineSegment { lat := hz.lat, lon := hz.lon }
                (waypoints.getD i default) (waypoints.getD (i + 1) default) <
              safetyMargin + hz.radius.getD 100) ∨
        ∃ d, (analyzeRouteHazards waypoints hazards vesselDraft safetyMargin).minDepth =
            some d ∧ d < vesselDraft + 1.0)) ∧
      (¬ (analyzeRouteHazards [stPoint, enPoint] [criticalHazard] 2 500).isSafe ∧
        ∃ x ∈ (analyzeRouteHazards [stPoint, enPoint] [criticalHazard] 2 500).hazards,
          x.hazard = criticalHazard ∧ x.waypointSegment = 0) := by
  constructor
  · rw [isSafe_iff, not_and_or]
    apply or_congr
    · constructor
      · intro hna
        push_neg at hna
        exact (exists_critical_attached waypoints hazards safetyMargin).mp hna
      · intro hex hall
        obtain ⟨x, hx, hcrit⟩ :=
          (exists_critical_attached waypoints hazards safetyMargin).mpr hex
        exact hall x hx hcrit
    · exact not_depthSafe (minDepthLoop waypoints hazards) vesselDraft
  · have hlt : distanceFromLineSegment
        { lat := criticalHazard.lat, lon := criticalHazard.lon }
        ([stPoint, enPoint].getD 0 default) ([stPoint, enPoint].getD 1 default) <
        500 + criticalHazard.radius.getD 100 := by
      have hg0 : [stPoint, enPoint].getD 0 default = stPoint := rfl
      have hg1 : [stPoint, enPoint].getD 1 default = enPoint := rfl
      rw [hg0, hg1, dist_seg_concrete]
      norm_num [criticalHazard]
    have hmem := (mem_routeHazardsList [stPoint, enPoint] [criticalHazard] 500 _).mpr
      ⟨0, by simp, criticalHazard, by simp, hlt, rfl⟩
    refine ⟨?_, ⟨_, hmem, rfl, rfl⟩⟩
    intro hsafe
    rw [isSafe_iff] at hsafe
    exact hsafe.1 _ hmem rfl

theorem C1_analyzeRouteHazards_witness :
    ¬ (analyzeRouteHazards [stPoint, enPoint] [criticalHazard] 2 500).isSafe ∧
      ∃ x ∈ (analyzeRouteHazards [stPoint, enPoint] [criticalHazard] 2 500).hazards,
        x.hazard = criticalHazard ∧ x.waypointSegment = 0 :=
  (C1_analyzeRouteHazards_isSafe [stPoint, enPoint] [criticalHazard] 2 500 (by simp)).2

/-- Claim C3: with at least two waypoints, the minDepth of
analyzeRouteHazards is the attained minimum of the depths of ALL fetched
hazards that define one, with no reference to attachment to any leg;
parseDepth maps the tidal covers tag to the sentinel -1; and any fetched
hazard whose depth is below vesselDraft + 1.0 makes the analysis unsafe
even when it is attached to no leg. -/
theorem C3_minDepth_all_hazards (waypoints : List LatLon)
    (hazards : List NauticalHazard) (vesselDraft safetyMargin : ℝ)
    (hlen : 2 ≤ waypoints.length) :
    ((analyzeRouteHazards waypoints hazards vesselDraft safetyMargin).minDepth = none ↔
      ∀ hz ∈ hazards, hz.depth = none) ∧
      (∀ m, (analyzeRouteHazards waypoints hazards vesselDraft safetyMargin).minDepth =
          some m →
        (∃ hz ∈ hazards, hz.depth = some m) ∧
          ∀ hz ∈ hazards, ∀ d, hz.depth = some d → m ≤ d) ∧
      (∀ tags : SeamarkDepthTags, tags.seamarkDepth = none →
        tags.rockWaterLevel = some "covers" → parseDepth tags = some (-1)) ∧
      (∀ hz ∈ hazards, ∀ d, hz.depth = some d → d < vesselDraft + 1.0 →
        ¬ (analyzeRouteHazards waypoints hazards vesselDraft safetyMargin).isSafe) := by
  have hmd : (analyzeRouteHazards waypoints hazards vesselDraft safetyMargin).minDepth =
      (hazards.filterMap NauticalHazard.depth).foldl optMin none := by
    show minDepthLoop waypoints hazards = _
    rw [minDepthLoop_eq waypoints hazards hlen, foldl_minDepthStep_eq]
  have hspec := foldl_optMin_none_spec (hazards.filterMap NauticalHazard.depth)
  refine ⟨?_, ?_, ?_, ?_⟩
  · rw [hmd]
    constructor
    · intro h
      have hnil := hspec.1.mp h
      intro hz hhz
      by_contra hne
      obtain ⟨d, hd⟩ := Option.ne_none_iff_exists'.mp hne
      have : d ∈ hazards.filterMap NauticalHazard.depth :=
        List.mem_filterMap.mpr ⟨hz, hhz, hd⟩
      rw [hnil] at this
      cases this
    · intro h
      have hnil : hazards.filterMap NauticalHazard.depth = [] :=
        List.filterMap_eq_nil_iff.mpr h
      rw [hnil]
      rfl
  · intro m hm
    rw [hmd] at hm
    obtain ⟨hmem, hbound⟩ := hspec.2 m hm
    refine ⟨List.mem_filterMap.mp hmem, ?_⟩
    intro hz hhz d hd
    exact hbound d (List.mem_filterMap.mpr ⟨hz, hhz, hd⟩)
  · intro tags h1 h2
    simp [parseDepth, h1, h2]
  · intro hz hhz d hd hlt hsafe
    rw [isSafe_iff] at hsafe
    have hds := hsafe.2
    have hfold : minDepthLoop waypoints hazards =
        (hazards.filterMap NauticalHazard.depth).foldl optMin none := by
      rw [minDepthLoop_eq waypoints hazards hlen, foldl_minDepthStep_eq]
    cases hM : (hazards.filterMap NauticalHazard.depth).foldl optMin none with
    | none =>
        have hnil := hspec.1.mp hM
        have : d ∈ hazards.filterMap NauticalHazard.depth :=
          List.mem_filterMap.mpr ⟨hz, hhz, hd⟩
        rw [hnil] at this
        cases this
    | some m =>
        obtain ⟨_, hbound⟩ := hspec.2 m hM
        have hmle : m ≤ d := hbound d (List.mem_filterMap.mpr ⟨hz, hhz, hd⟩)
        rw [hfold, hM] at hds
        have hsafe2 : vesselDraft + 1.0 ≤ m := hds
        linarith

/-- A hazard with the tidal sentinel depth far from the example leg. -/
def tidalHazard : NauticalHazard :=
  { id := "hz2", type := HazardType.rock, lat := 50, lon := 50,
    radius := some 50, polygon := none, depth := some (-1), description := none,
    severity := HazardSeverity.danger, source := "osm" }

theorem C3_minDepth_witness :
    ¬ (analyzeRouteHazards [stPoint, enPoint] [tidalHazard] 2 500).isSafe := by
  have h := (C3_minDepth_all_hazards [stPoint, enPoint] [tidalHazard] 2 500 (by simp)).2.2.2
  exact h tidalHazard (by simp) (-1) rfl (by norm_num)

/-- Alert type enumeration of NavigationAlert. -/
inductive AlertType where
  | waypointApproaching
  | waypointReached
  | offCourse
  | destinationReached
  | lowSpeed
  | courseCorrection
  | gpsError
  | permissionDenied
deriving DecidableEq, Repr, Inhabited

/-- Alert severity enumeration of NavigationAlert. -/
inductive AlertSeverity where
  | info
  | warning
  | success
  | error
deriving DecidableEq, Repr, Inhabited

/-- NavigationAlert.  The Date timestamp (the emission time) is not
modelled; the optional autoClose flag is kept. -/
structure NavigationAlert where
  type : AlertType
  message : String
  severity : AlertSeverity
  autoClose : Option Bool
deriving DecidableEq, Inhabited

/-- The events the OfflineNavigationSystem emits through its listener
registry, with their payloads; emitAlert is the alert event. -/
inductive NavEvent where
  | navigationStarted (route : Route)
  | navigationStopped
  | navigationPaused
  | navigationResumed
  | waypointSkipped (w : Waypoint)
  | navigationUpdate (s : NavigationState)
  | headingUpdate (heading : ℝ)
  | waypointReached (w : Waypoint) (index : ℕ)
  | destinationReached (destination : Waypoint)
  | alert (a : NavigationAlert)

/-- The OfflineNavigationConfig fields. -/
structure OfflineNavigationConfig where
  updateIntervalMs : ℕ
  waypointThresholdNM : ℝ
  enableVoiceAlerts : Bool
  enableVibration : Bool
  speedSmoothingFactor : ℝ
deriving Inhabited

/-- One navigation-history entry: {lat, lon, timestamp, speed} with
the Date timestamp not modelled. -/
structure HistoryEntry where
  lat : ℝ
  lon : ℝ
  speed : ℝ
deriving Inhabited

/-- The mutable instance state of the OfflineNavigationSystem class.
The geolocation watch subscription is the optional watchId; listener
registration, storage caching and the haptic and speech sinks have no
state observable by the embedded logic. -/
structure NavSystem where
  watchId : Option ℕ
  route : Option Route
  currentWaypointIndex : ℕ
  isNavigating : Bool
  navigationHistory : List HistoryEntry
  currentHeading : ℝ
  currentSpeed : ℝ
  smoothedSpeeds : List ℝ
  config : OfflineNavigationConfig
deriving Inhabited

/-- A geolocation fix: coords.latitude, coords.longitude and the
nullable coords.speed (m/s) and coords.heading. -/
structure GeoPosition where
  latitude : ℝ
  longitude : ℝ
  speed : Option ℝ
  heading : Option ℝ
deriving Inhabited

/-- smoothSpeed: push the reading, keep the last 5, return the rolling
average together with the updated buffer. -/
def smoothSpeed (buffer : List ℝ) (newSpeed : ℝ) : ℝ × List ℝ :=
  let pushed := buffer ++ [newSpeed]
  let kept := if 5 < pushed.length then pushed.tail else pushed
  (kept.sum / kept.length, kept)

/-- stopNavigation: clear the watch subscription, the flag, the route
and the cursor, and emit navigationStopped. -/
def stopNavigation (s : NavSystem) : NavSystem × List NavEvent :=
  ({ s with
      watchId := none
      isNavigating := false
      route := none
      currentWaypointIndex := 0 },
    [NavEvent.navigationStopped])

/-- startNavigation: stop any running session first, reset the cursor
and history, set the flag, begin the GPS subscription (a fresh watchId)
and emit navigationStarted.  Permission requests, compass subscription
and the route cache write have no modelled state. -/
def startNavigation (s : NavSystem) (route : Route) : NavSystem × List NavEvent :=
  let stopped := if s.isNavigating then stopNavigation s else (s, [])
  ({ stopped.1 with
      route := some route, currentWaypointIndex := 0, isNavigating := true,
      navigationHistory := [], watchId := some 1 },
    stopped.2 ++ [NavEvent.navigationStarted route])

/-- pauseNavigation: clear only the isNavigating flag and emit
navigationPaused. -/
def pauseNavigation (s : NavSystem) : NavSystem × List NavEvent :=
  ({ s with isNavigating := false }, [NavEvent.navigationPaused])

/-- resumeNavigation: restore the flag when a route is set. -/
def resumeNavigation (s : NavSystem) : NavSystem × List NavEvent :=
  match s.route with
  | some _ => ({ s with isNavigating := true }, [NavEvent.navigationResumed])
  | none => (s, [])

/-- skipToNextWaypoint: advance the cursor, bounded before the
second-to-last waypoint. -/
def skipToNextWaypoint (s : NavSystem) : NavSystem × List NavEvent :=
  match s.route with
  | some route =>
      if s.currentWaypointIndex < route.waypoints.length - 2 then
        ({ s with currentWaypointIndex := s.currentWaypointIndex + 1 },
          [NavEvent.waypointSkipped
            (route.waypoints.getD (s.currentWaypointIndex + 1) default)])
      else (s, [])
  | none => (s, [])

/-- The getStatus result record. -/
structure NavStatus where
  isNavigating : Bool
  route : Option Route
  currentWaypointIndex : ℕ
  historyLength : ℕ

/-- getStatus of the OfflineNavigationSystem. -/
def getStatus (s : NavSystem) : NavStatus :=
  { isNavigating := s.isNavigating, route := s.route,
    currentWaypointIndex := s.currentWaypointIndex,
    historyLength := s.navigationHistory.length }

/-- The normalized heading difference of checkCourseDeviation. -/
def normalizedDiff (navState : NavigationState) : ℝ :=
  min |navState.bearingToNext - navState.heading|
    (360 - |navState.bearingToNext - navState.heading|)

/-- The turn direction chosen in the course-correction message. -/
def turnDirection (nd : ℝ) : String :=
  if 180 < nd then "left" else "right"

/-- checkCourseDeviation: a warning course-correction alert when the
normalized heading difference exceeds 45 degrees, and an info low-speed
alert when the smoothed speed is below 0.5 knots. -/
def checkCourseDeviation (navState : NavigationState) : List NavigationAlert :=
  match navState.nextWaypoint with
  | none => []
  | some _ =>
      (if 45 < normalizedDiff navState then
        [{ type := AlertType.courseCorrection,
           message := "Off course: Turn " ++ turnDirection (normalizedDiff navState) ++
             " to " ++ toString (round navState.bearingToNext) ++ "°",
           severity := AlertSeverity.warning, autoClose := some true }]
      else []) ++
      (if navState.speed < 0.5 then
        [{ type := AlertType.lowSpeed, message := "Very low speed detected",
           severity := AlertSeverity.info, autoClose := some true }]
      else [])

/-- handleDestinationReached: destination alert, destinationReached
event, then the automatic stopNavigation.  The haptic and speech effects
are not modelled. -/
def handleDestinationReached (s : NavSystem) : NavSystem × List NavEvent :=
  match s.route with
  | none => (s, [])
  | some route =>
      let destination := route.waypoints.getLast?.getD default
      let stopped := stopNavigation s
      (stopped.1,
        [NavEvent.alert
          { type := AlertType.destinationReached,
            message := "Destination reached: " ++ destination.name,
            severity := AlertSeverity.success, autoClose := none },
         NavEvent.destinationReached destination] ++ stopped.2)

/-- handleWaypointReached: advance the cursor; at the last waypoint
transition to destination reached, otherwise emit the success alert and
the waypointReached event. -/
def handleWaypointReached (s : NavSystem) (waypoint : Waypoint) : NavSystem × List NavEvent :=
  let s1 := { s with currentWaypointIndex := s.currentWaypointIndex + 1 }
  match s1.route with
  | some route =>
      if route.waypoints.length - 1 ≤ s1.currentWaypointIndex then
        handleDestinationReached s1
      else
        (s1, [NavEvent.alert
            { type := AlertType.waypointReached,
              message := "Waypoint reached: " ++ waypoint.name,
              severity := AlertSeverity.success, autoClose := none },
          NavEvent.waypointReached waypoint s1.currentWaypointIndex])
  | none =>
      (s1, [NavEvent.alert
          { type := AlertType.waypointReached,
            message := "Waypoint reached: " ++ waypoint.name,
            severity := AlertSeverity.success, autoClose := none },
        NavEvent.waypointReached waypoint s1.currentWaypointIndex])

/-- checkWaypointProximity: the approaching alert between the threshold
and 0.5 NM (its toFixed distance suffix is not modelled), then waypoint
reached handling inside the threshold. -/
def checkWaypointProximity (s : NavSystem) (lat lon : ℝ)
    (navState : NavigationState) : NavSystem × List NavEvent :=
  match navState.nextWaypoint with
  | none => (s, [])
  | some next =>
      let approaching :=
        if navState.distanceToNext < 0.5 ∧
            s.config.waypointThresholdNM < navState.distanceToNext then
          [NavEvent.alert
            { type := AlertType.waypointApproaching,
              message := "Approaching " ++ next.name,
              severity := AlertSeverity.info, autoClose := some true }]
        else []
      if isNearWaypoint lat lon next.lat next.lon s.config.waypointThresholdNM then
        let reached := handleWaypointReached s next
        (reached.1, approaching ++ reached.2)
      else (s, approaching)

/-- handlePositionUpdate: ignored unless a route is set and navigating;
otherwise update heading (preferring the fix's own course), the smoothed
speed and the bounded 100-entry history, recompute and emit the
navigation state, then run the waypoint-proximity and course-deviation
checks.  The localStorage position cache write is not modelled. -/
def handlePositionUpdate (s : NavSystem) (position : GeoPosition) :
    NavSystem × List NavEvent :=
  match s.route, s.isNavigating with
  | some route, true =>
      let heading1 :=
        match position.heading with
        | some h => h
        | none => s.currentHeading
      let speedKnots :=
        match position.speed with
        | some v => if v = 0 then 0 else v * 1.94384
        | none => 0
      let smoothed := smoothSpeed s.smoothedSpeeds speedKnots
      let pushed := s.navigationHistory ++
        [{ lat := position.latitude, lon := position.longitude, speed := smoothed.1 }]
      let history1 := if 100 < pushed.length then pushed.tail else pushed
      let navState := calculateNavigationState
        { lat := position.latitude, lon := position.longitude,
          heading := heading1, speed := smoothed.1 }
        route s.currentWaypointIndex
      let s1 := { s with
        currentHeading := heading1
        currentSpeed := smoothed.1
        smoothedSpeeds := smoothed.2
        navigationHistory := history1 }
      let prox := checkWaypointProximity s1 position.latitude position.longitude navState
      let devAlerts := (checkCourseDeviation navState).map NavEvent.alert
      (prox.1, NavEvent.navigationUpdate navState :: (prox.2 ++ devAlerts))
  | _, _ => (s, [])

lemma round_300 : round (300 : ℝ) = 300 := by
  have h : ((300 : ℤ) : ℝ) = (300 : ℝ) := by norm_num
  rw [← h, round_intCast]

/-- The navigation state of the C4 counterexample: heading 10, bearing
300 toward the next waypoint, speed 1. -/
def navCexState : NavigationState :=
  { currentPosition := pos0
    heading := 10
    speed := 1
    nextWaypoint := some wpB
    distanceToNext := 1
    bearingToNext := 300
    etaToNext := 0
    progress := 0 }

/-- Counterexample for claim C4: with heading 10 and bearing-to-next
300, the raw signed difference 290 exceeds 180, yet the emitted
course-correction alert says turn right: the source picks the direction
by testing the normalized difference (always at most 180) against
180. -/
theorem C4_course_deviation_counterexample :
    (180 : ℝ) < 300 - 10 ∧
      checkCourseDeviation navCexState =
        [{ type := AlertType.courseCorrection
           message := "Off course: Turn right to 300°"
           severity := AlertSeverity.warning
           autoClose := some true }] := by
  have habs : |(300 : ℝ) - 10| = 290 := by
    rw [show (300 : ℝ) - 10 = 290 by norm_num]
    exact abs_of_pos (by norm_num)
  have hnd : normalizedDiff navCexState = 70 := by
    rw [normalizedDiff]
    have hb : navCexState.bearingToNext = 300 := rfl
    have hh : navCexState.heading = 10 := rfl
    rw [hb, hh, habs]
    norm_num
  refine ⟨by norm_num, ?_⟩
  have hnext : navCexState.nextWaypoint = some wpB := rfl
  have hspeed : navCexState.speed = 1 := rfl
  have hbear : navCexState.bearingToNext = 300 := rfl
  simp only [checkCourseDeviation, hnext]
  rw [hnd, hspeed, hbear, round_300]
  rw [if_pos (by norm_num : (45 : ℝ) < 70), if_neg (by norm_num : ¬ (1 : ℝ) < 0.5)]
  simp only [turnDirection]
  rw [if_neg (by norm_num : ¬ (180 : ℝ) < 70)]
  rfl

/-- Claim C4 (amended): with a next waypoint, checkCourseDeviation emits
a warning course-correction alert iff the heading/bearing difference
normalized into [0,180] exceeds 45 (silent at exactly 45); the message
direction tests the NORMALIZED difference (not the raw signed one)
against 180, and since that difference never exceeds 180 for headings
and bearings in [0,360], the suggestion is always "right". -/
theorem C4_course_deviation_amended (ns : NavigationState) (w : Waypoint)
    (hw : ns.nextWaypoint = some w) :
    ((∃ a ∈ checkCourseDeviation ns, a.type = AlertType.courseCorrection) ↔
        45 < normalizedDiff ns) ∧
      (∀ a ∈ checkCourseDeviation ns, a.type = AlertType.courseCorrection →
        a.message = "Off course: Turn " ++ turnDirection (normalizedDiff ns) ++
            " to " ++ toString (round ns.bearingToNext) ++ "°" ∧
          a.severity = AlertSeverity.warning ∧ a.autoClose = some true) ∧
      (0 ≤ ns.heading → ns.heading ≤ 360 → 0 ≤ ns.bearingToNext → ns.bearingToNext ≤ 360 →
        0 ≤ normalizedDiff ns ∧ normalizedDiff ns ≤ 180 ∧
          turnDirection (normalizedDiff ns) = "right") := by
  have hbounds : 0 ≤ ns.heading → ns.heading ≤ 360 → 0 ≤ ns.bearingToNext →
      ns.bearingToNext ≤ 360 → 0 ≤ normalizedDiff ns ∧ normalizedDiff ns ≤ 180 := by
    intro h1 h2 h3 h4
    have habs0 : 0 ≤ |ns.bearingToNext - ns.heading| := abs_nonneg _
    have habs360 : |ns.bearingToNext - ns.heading| ≤ 360 :=
      abs_le.mpr ⟨by linarith, by linarith⟩
    constructor
    · exact le_min habs0 (by linarith)
    · rcases le_or_lt |ns.bearingToNext - ns.heading| 180 with h | h
      · exact le_trans (min_le_left _ _) h
      · exact le_trans (min_le_right _ _) (by linarith)
  refine ⟨?_, ?_, ?_⟩
  · simp only [checkCourseDeviation, hw]
    by_cases h45 : 45 < normalizedDiff ns <;> by_cases hsp : ns.speed < 0.5 <;>
      simp [h45, hsp]
  · intro a ha hty
    simp only [checkCourseDeviation, hw] at ha
    by_cases h45 : 45 < normalizedDiff ns <;> by_cases hsp : ns.speed < 0.5 <;>
      simp [h45, hsp] at ha
    · rcases ha with ha | ha
      · rw [ha]
        exact ⟨rfl, rfl, rfl⟩
      · rw [ha] at hty
        cases hty
    · rw [ha]
      exact ⟨rfl, rfl, rfl⟩
    · rw [ha] at hty
      cases hty
  · intro h1 h2 h3 h4
    obtain ⟨hge, hle⟩ := hbounds h1 h2 h3 h4
    refine ⟨hge, hle, ?_⟩
    rw [turnDirection, if_neg (not_lt.mpr hle)]

/-- The navigation state of the C4 witness: heading 0, bearing 100. -/
def navWitState : NavigationState :=
  { currentPosition := pos0
    heading := 0
    speed := 1
    nextWaypoint := some wpB
    distanceToNext := 1
    bearingToNext := 100
    etaToNext := 0
    progress := 0 }

theorem C4_course_deviation_witness :
    ((∃ a ∈ checkCourseDeviation navWitState, a.type = AlertType.courseCorrection) ↔
        45 < normalizedDiff navWitState) ∧
      turnDirection (normalizedDiff navWitState) = "right" := by
  have h := C4_course_deviation_amended navWitState wpB rfl
  refine ⟨h.1, ?_⟩
  have hb := h.2.2 (by norm_num [navWitState]) (by norm_num [navWitState])
    (by norm_num [navWitState]) (by norm_num [navWitState])
  exact hb.2.2

lemma handlePositionUpdate_not_navigating (s : NavSystem) (p : GeoPosition)
    (hnav : s.isNavigating = false) : handlePositionUpdate s p = (s, []) := by
  cases hsr : s.route with
  | none => simp [handlePositionUpdate, hsr]
  | some r => simp [handlePositionUpdate, hsr, hnav]

/-- Claim C10: pauseNavigation clears only the isNavigating flag (all
other state, in particular the watch subscription, survives); a paused
session ignores position updates entirely, running no checks and
emitting no alerts or events; resumeNavigation with a route set restores
the flag. -/
theorem C10_pause_resume (s : NavSystem) (r : Route) (hr : s.route = some r) :
    (pauseNavigation s).1 = { s with isNavigating := false } ∧
      (pauseNavigation s).1.watchId = s.watchId ∧
      (∀ p : GeoPosition, handlePositionUpdate (pauseNavigation s).1 p =
        ((pauseNavigation s).1, [])) ∧
      (resumeNavigation (pauseNavigation s).1).1.isNavigating = true := by
  refine ⟨rfl, rfl, ?_, ?_⟩
  · intro p
    exact handlePositionUpdate_not_navigating _ p rfl
  · have hr2 : (pauseNavigation s).1.route = some r := hr
    simp [resumeNavigation, hr2]

/-- Default configuration of the OfflineNavigationSystem constructor. -/
def defaultConfig : OfflineNavigationConfig :=
  { updateIntervalMs := 1000
    waypointThresholdNM := 0.1
    enableVoiceAlerts := true
    enableVibration := true
    speedSmoothingFactor := 0.3 }

/-- The idle state of a freshly constructed OfflineNavigationSystem. -/
def initialSystem : NavSystem :=
  { watchId := none
    route := none
    currentWaypointIndex := 0
    isNavigating := false
    navigationHistory := []
    currentHeading := 0
    currentSpeed := 0
    smoothedSpeeds := []
    config := defaultConfig }

/-- A navigating demo state used by the C10 witness. -/
def navDemoSystem : NavSystem :=
  { initialSystem with
    watchId := some 1
    route := some routeAB
    isNavigating := true }

/-- A concrete GPS fix at the origin with no course and no speed. -/
def demoFix : GeoPosition :=
  { latitude := 0
    longitude := 0
    speed := none
    heading := none }

theorem C10_pause_resume_witness :
    (pauseNavigation navDemoSystem).1.watchId = navDemoSystem.watchId ∧
      handlePositionUpdate (pauseNavigation navDemoSystem).1 demoFix =
        ((pauseNavigation navDemoSystem).1, []) ∧
      (resumeNavigation (pauseNavigation navDemoSystem).1).1.isNavigating = true := by
  have h := C10_pause_resume navDemoSystem routeAB rfl
  exact ⟨h.2.1, h.2.2.1 demoFix, h.2.2.2⟩

lemma startNavigation_fst (s : NavSystem) (route : Route) :
    (startNavigation s route).1 = { s with
      watchId := some 1
      route := some route
      currentWaypointIndex := 0
      isNavigating := true
      navigationHistory := [] } := by
  cases hb : s.isNavigating with
  | false => simp [startNavigation, hb]
  | true => simp [startNavigation, stopNavigation, hb]

/-- Claim C6: starting navigation on a two-waypoint route and feeding a
position fix within the waypoint threshold of the destination produces
the success destination-reached alert, the destinationReached event and
the automatic stop, after which getStatus reports isNavigating =
false. -/
theorem C6_destination_reached (s0 : NavSystem) (route : Route) (w0 w1 : Waypoint)
    (hroute : route.waypoints = [w0, w1]) (p : GeoPosition)
    (hnear : isNearWaypoint p.latitude p.longitude w1.lat w1.lon
      s0.config.waypointThresholdNM) :
    NavEvent.alert
        { type := AlertType.destinationReached
          message := "Destination reached: " ++ w1.name
          severity := AlertSeverity.success
          autoClose := none } ∈
        (handlePositionUpdate (startNavigation s0 route).1 p).2 ∧
      NavEvent.destinationReached w1 ∈
        (handlePositionUpdate (startNavigation s0 route).1 p).2 ∧
      NavEvent.navigationStopped ∈
        (handlePositionUpdate (startNavigation s0 route).1 p).2 ∧
      (getStatus (handlePositionUpdate (startNavigation s0 route).1 p).1).isNavigating =
        false := by
  have hnsg : ∀ cp : CurrentPosition,
      (calculateNavigationState cp route 0).nextWaypoint = some w1 := by
    intro cp
    simp [calculateNavigationState, hroute]
  have hlast : route.waypoints.getLast? = some w1 := by
    rw [hroute]
    rfl
  refine ⟨?_, ?_, ?_, ?_⟩ <;>
    simp [startNavigation_fst, handlePositionUpdate, hnsg, checkWaypointProximity,
      hnear, handleWaypointReached, hroute, handleDestinationReached, hlast,
      stopNavigation, getStatus]

theorem C6_destination_reached_witness :
    NavEvent.destinationReached wpB ∈
        (handlePositionUpdate (startNavigation initialSystem routeAB).1 demoFix).2 ∧
      (getStatus
        (handlePositionUpdate (startNavigation initialSystem routeAB).1 demoFix).1).isNavigating =
        false := by
  have hnear : isNearWaypoint demoFix.latitude demoFix.longitude wpB.lat wpB.lon
      initialSystem.config.waypointThresholdNM := by
    show calculateDistance demoFix.latitude demoFix.longitude wpB.lat wpB.lon ≤ _
    have hz : calculateDistance demoFix.latitude demoFix.longitude wpB.lat wpB.lon = 0 := by
      simp [demoFix, wpB, calculateDistance_self]
    rw [hz]
    norm_num [initialSystem, defaultConfig]
  have h := C6_destination_reached initialSystem routeAB wpA wpB rfl demoFix hnear
  exact ⟨h.2.1, h.2.2.2⟩

end SeaYou
